import Mathlib

/-!
A shallow embedding of `x/blog/keeper/ibc_post.go` from the `planet`
repository: the IBC post transmitter (`TransmitIbcPostPacket`), receiver
(`OnRecvIbcPostPacket`), acknowledgement handler
(`OnAcknowledgementIbcPostPacket`) and timeout handler
(`OnTimeoutIbcPostPacket`), together with the three blog-module
append-only stores (posts, sent posts, timed-out posts).

External collaborators (the IBC channel keeper, the scoped capability
keeper and the serialization codec) are passed in as explicit function
records, mirroring how the Go code consumes them through interfaces.
-/

namespace Planet

/-- Bytes are modelled as a list of byte values. -/
abbrev Bytes := List Nat

/-- The type `clienttypes.Height`: a structured timeout height. -/
structure Height where
  revisionNumber : Nat
  revisionHeight : Nat
  deriving Repr, DecidableEq

/-- The type `types.IbcPostPacketData`: the application payload carried in a packet. -/
structure IbcPostPacketData where
  creator : String
  title : String
  content : String
  deriving Repr, DecidableEq

/-- The type `types.IbcPostPacketAck`: the acknowledgement result, carrying the
decimal-encoded id of the post appended on the receiving chain. -/
structure IbcPostPacketAck where
  postID : String
  deriving Repr, DecidableEq

/-- The type `channeltypes.Packet`: the immutable IBC packet value, as built by
`channeltypes.NewPacket` in `TransmitIbcPostPacket`. -/
structure Packet where
  sequence : Nat
  sourcePort : String
  sourceChannel : String
  destinationPort : String
  destinationChannel : String
  timeoutHeight : Height
  timeoutTimestamp : Nat
  data : Bytes
  deriving Repr, DecidableEq

/-- The type `types.Post`: a post record held in the post store of the receiving chain. -/
structure Post where
  id : Nat
  creator : String
  title : String
  content : String
  deriving Repr, DecidableEq

/-- The type `types.SentPost`: a record of a successfully acknowledged post, held on
the sending chain. -/
structure SentPost where
  id : Nat
  creator : String
  postID : String
  title : String
  chain : String
  deriving Repr, DecidableEq

/-- The type `types.TimedoutPost`: a record of a post whose packet timed out, held on
the sending chain. -/
structure TimedoutPost where
  id : Nat
  creator : String
  title : String
  chain : String
  deriving Repr, DecidableEq

/-- The persistent state of the blog module: the three append-only stores with
their monotonically increasing counters. -/
structure BlogState where
  posts : List Post
  postCount : Nat
  sentPosts : List SentPost
  sentPostCount : Nat
  timedoutPosts : List TimedoutPost
  timedoutPostCount : Nat
  deriving Repr, DecidableEq

/-- Modelled from the spec: `AppendPost` is not under `src/`; the spec says
the Post Store assigns a fresh unique id (store-assigned, strictly
increasing within the chain, never reused) and appends the record, returning
the id. Fields other than the id are taken verbatim from the argument. -/
def AppendPost (st : BlogState) (creator title content : String) :
    Nat × BlogState :=
  (st.postCount,
   { st with
     posts := st.posts ++
       [{ id := st.postCount, creator := creator, title := title,
          content := content }],
     postCount := st.postCount + 1 })

/-- Modelled from the spec: `AppendSentPost` is not under `src/`; the spec
describes the Sent-Post Store as an append-only log with monotonically
increasing keys. -/
def AppendSentPost (st : BlogState) (creator postID title chain : String) :
    BlogState :=
  { st with
    sentPosts := st.sentPosts ++
      [{ id := st.sentPostCount, creator := creator, postID := postID,
         title := title, chain := chain }],
    sentPostCount := st.sentPostCount + 1 }

/-- Modelled from the spec: `AppendTimedoutPost` is not under `src/`; the
spec describes the Timed-Out-Post Store as an append-only log with
monotonically increasing keys. -/
def AppendTimedoutPost (st : BlogState) (creator title chain : String) :
    BlogState :=
  { st with
    timedoutPosts := st.timedoutPosts ++
      [{ id := st.timedoutPostCount, creator := creator, title := title,
         chain := chain }],
    timedoutPostCount := st.timedoutPostCount + 1 }

/-- The error values that the four keeper operations can return. -/
inductive BlogError where
  /-- Error `channeltypes.ErrChannelNotFound`, wrapped. -/
  | channelNotFound
  /-- Error `channeltypes.ErrSequenceSendNotFound`, wrapped. -/
  | sequenceNotFound
  /-- Error `channeltypes.ErrChannelCapabilityNotFound`, wrapped. -/
  | capabilityMissing
  /-- Error `sdkerrors.ErrJSONMarshal`, wrapped with the codec message. -/
  | encodingError (msg : String)
  /-- The error returned by `data.ValidateBasic()`. -/
  | validationError
  /-- Error `errors.New("cannot unmarshal acknowledgment")`. -/
  | ackDecodeError
  /-- Error `errors.New("the counter-party module does not implement the correct acknowledgment format")`. -/
  | unsupportedAckFormat
  /-- An error propagated unchanged from `ChannelKeeper.SendPacket`. -/
  | transportError (msg : String)
  deriving Repr, DecidableEq

/-- Modelled from the spec: `IbcPostPacketData.ValidateBasic` is not under
`src/`; the spec says validation fails with `ValidationError` if `creator`
or `title` is empty. -/
def IbcPostPacketData.validateBasic (d : IbcPostPacketData) :
    Except BlogError Unit :=
  if d.creator = "" then .error .validationError
  else if d.title = "" then .error .validationError
  else .ok ()

/-- The counterparty half of a channel end (`GetCounterparty`). -/
structure Counterparty where
  portID : String
  channelID : String
  deriving Repr, DecidableEq

/-- The part of `channeltypes.Channel` that `TransmitIbcPostPacket` reads. -/
structure ChannelEnd where
  counterparty : Counterparty
  deriving Repr, DecidableEq

/-- An opaque channel capability token (`capabilitytypes.Capability`). -/
structure Capability where
  index : Nat
  deriving Repr, DecidableEq

/-- Function `host.ChannelCapabilityPath`: the deterministic capability path derived
from a (port, channel) pair. -/
def ChannelCapabilityPath (portID channelID : String) : String :=
  "ports/" ++ portID ++ "/channels/" ++ channelID

/-- The external collaborators consumed by `TransmitIbcPostPacket`: the
lookups and send primitive of the channel keeper, and the lookup of the
scoped capability keeper. -/
structure TransmitEnv where
  getChannel : String → String → Option ChannelEnd
  getNextSequenceSend : String → String → Option Nat
  getCapability : String → Option Capability
  sendPacket : Capability → Packet → Except BlogError Unit

/-- The external codec: `packetData.GetBytes()` for encoding the payload and
`types.ModuleCdc.UnmarshalJSON` for decoding an acknowledgement result. -/
structure Codec where
  encodePacketData : IbcPostPacketData → Except String Bytes
  decodeAck : Bytes → Option IbcPostPacketAck

/-- Function `TransmitIbcPostPacket`: resolve the channel, its counterparty, the next
send sequence and the channel capability, serialize the payload, build the
packet and hand it to the send primitive of the transport. On success the packet
handed to `SendPacket` is returned as the `ok` value; the blog state is
returned unchanged alongside (the Go function makes no store call). -/
def TransmitIbcPostPacket (env : TransmitEnv) (cdc : Codec) (st : BlogState)
    (packetData : IbcPostPacketData) (sourcePort sourceChannel : String)
    (timeoutHeight : Height) (timeoutTimestamp : Nat) :
    Except BlogError Packet × BlogState :=
  match env.getChannel sourcePort sourceChannel with
  | none => (.error .channelNotFound, st)
  | some sourceChannelEnd =>
    let destinationPort := sourceChannelEnd.counterparty.portID
    let destinationChannel := sourceChannelEnd.counterparty.channelID
    match env.getNextSequenceSend sourcePort sourceChannel with
    | none => (.error .sequenceNotFound, st)
    | some sequence =>
      match env.getCapability (ChannelCapabilityPath sourcePort sourceChannel) with
      | none => (.error .capabilityMissing, st)
      | some channelCap =>
        match cdc.encodePacketData packetData with
        | .error msg => (.error (.encodingError msg), st)
        | .ok packetBytes =>
          let packet : Packet :=
            { sequence := sequence
              sourcePort := sourcePort
              sourceChannel := sourceChannel
              destinationPort := destinationPort
              destinationChannel := destinationChannel
              timeoutHeight := timeoutHeight
              timeoutTimestamp := timeoutTimestamp
              data := packetBytes }
          match env.sendPacket channelCap packet with
          | .error e => (.error e, st)
          | .ok _ => (.ok packet, st)

/-- Function `OnRecvIbcPostPacket`: validate the payload, then append a post whose
creator is `sourcePort + "-" + sourceChannel + "-" + creator`, and return an
acknowledgement carrying the decimal string of the fresh post id. -/
def OnRecvIbcPostPacket (st : BlogState) (packet : Packet)
    (data : IbcPostPacketData) :
    Except BlogError IbcPostPacketAck × BlogState :=
  match data.validateBasic with
  | .error e => (.error e, st)
  | .ok _ =>
    let (id, st2) := AppendPost st
      (packet.sourcePort ++ "-" ++ packet.sourceChannel ++ "-" ++ data.creator)
      data.title data.content
    (.ok { postID := Nat.repr id }, st2)

/-- The type `channeltypes.Acknowledgement`: the Go value dispatches on the dynamic
type of `ack.Response`, an open interface with known variants
`Acknowledgement_Error` and `Acknowledgement_Result`; the `default` switch
branch is reached by any other implementation, modelled by `unknown`. -/
inductive AckResponse where
  | ackError (message : String)
  | ackResult (result : Bytes)
  | unknown
  deriving Repr, DecidableEq

/-- Function `OnAcknowledgementIbcPostPacket`: a no-op on an error acknowledgement;
on a result acknowledgement decode it and append a sent post; an error on
any other acknowledgement shape. -/
def OnAcknowledgementIbcPostPacket (cdc : Codec) (st : BlogState)
    (packet : Packet) (data : IbcPostPacketData) (ack : AckResponse) :
    Except BlogError Unit × BlogState :=
  match ack with
  | .ackError _ => (.ok (), st)
  | .ackResult resultBytes =>
    match cdc.decodeAck resultBytes with
    | none => (.error .ackDecodeError, st)
    | some packetAck =>
      (.ok (),
       AppendSentPost st data.creator packetAck.postID data.title
         (packet.destinationPort ++ "-" ++ packet.destinationChannel))
  | .unknown => (.error .unsupportedAckFormat, st)

/-- Function `OnTimeoutIbcPostPacket`: unconditionally append a timed-out post and
return success. -/
def OnTimeoutIbcPostPacket (st : BlogState) (packet : Packet)
    (data : IbcPostPacketData) : Except BlogError Unit × BlogState :=
  (.ok (),
   AppendTimedoutPost st data.creator data.title
     (packet.destinationPort ++ "-" ++ packet.destinationChannel))


/-! ### Concrete fixtures used by witnesses and counterexamples -/

/-- A blog state with all three stores empty. -/
def emptyState : BlogState :=
  { posts := [], postCount := 0, sentPosts := [], sentPostCount := 0,
    timedoutPosts := [], timedoutPostCount := 0 }

/-- A concrete timeout height. -/
def testHeight : Height := { revisionNumber := 1, revisionHeight := 100 }

/-- A concrete inbound packet from port `post`, channel `channel-0`. -/
def recvPacket : Packet :=
  { sequence := 1, sourcePort := "post", sourceChannel := "channel-0",
    destinationPort := "blog", destinationChannel := "channel-7",
    timeoutHeight := testHeight, timeoutTimestamp := 0, data := [] }

/-- A concrete originated packet destined for port `post`, channel `channel-1`. -/
def sentPacket : Packet :=
  { sequence := 3, sourcePort := "blog", sourceChannel := "channel-7",
    destinationPort := "post", destinationChannel := "channel-1",
    timeoutHeight := testHeight, timeoutTimestamp := 0, data := [] }

/-- A concrete originated packet destined for port `post`, channel `channel-2`. -/
def timeoutPacket : Packet :=
  { sequence := 4, sourcePort := "blog", sourceChannel := "channel-7",
    destinationPort := "post", destinationChannel := "channel-2",
    timeoutHeight := testHeight, timeoutTimestamp := 0, data := [] }

/-- A concrete executable codec: a one-byte acknowledgement decodes to the
decimal string of that byte, a two-or-more-byte acknowledgement decodes to an
empty post id, and the empty byte string fails to decode. -/
def testCodec : Codec :=
  { encodePacketData := fun d =>
      .ok [d.creator.length, d.title.length, d.content.length]
    decodeAck := fun bs =>
      match bs with
      | [] => none
      | [n] => some { postID := Nat.repr n }
      | _ => some { postID := "" } }

/-- One sender-side reconciler invocation for a fixed packet and payload:
either the acknowledgement handler with some acknowledgement outcome, or
the timeout handler. -/
inductive ReconcilerCall where
  | ackCall (ack : AckResponse)
  | timeoutCall
  deriving Repr, DecidableEq

/-- Apply one reconciler invocation to the blog state. -/
def runReconcilerCall (cdc : Codec) (packet : Packet)
    (data : IbcPostPacketData) (st : BlogState) :
    ReconcilerCall → BlogState
  | .ackCall ack =>
    (OnAcknowledgementIbcPostPacket cdc st packet data ack).2
  | .timeoutCall => (OnTimeoutIbcPostPacket st packet data).2

/-- Apply a sequence of reconciler invocations for one fixed packet and
payload, in order. -/
def runReconcilerCalls (cdc : Codec) (packet : Packet)
    (data : IbcPostPacketData) (st : BlogState)
    (cs : List ReconcilerCall) : BlogState :=
  cs.foldl (runReconcilerCall cdc packet data) st

/-- The payload of the acknowledgement example in the spec. -/
def bobPayload : IbcPostPacketData :=
  { creator := "bob", title := "Hi", content := "" }

/-- A transmit environment in which every lookup succeeds and the transport
send primitive succeeds. -/
def goodEnv : TransmitEnv :=
  { getChannel := fun _ _ =>
      some { counterparty := { portID := "post", channelID := "channel-1" } }
    getNextSequenceSend := fun _ _ => some 5
    getCapability := fun _ => some { index := 1 }
    sendPacket := fun _ _ => .ok () }

/-- A transmit environment with no channel for any endpoint. -/
def noChannelEnv : TransmitEnv :=
  { goodEnv with getChannel := fun _ _ => none }

/-- A transmit environment with no send-sequence state for any endpoint. -/
def noSequenceEnv : TransmitEnv :=
  { goodEnv with getNextSequenceSend := fun _ _ => none }

/-- A transmit environment in which the module holds no capability. -/
def noCapabilityEnv : TransmitEnv :=
  { goodEnv with getCapability := fun _ => none }

/-- A transmit environment whose transport send primitive fails. -/
def failSendEnv : TransmitEnv :=
  { goodEnv with
    sendPacket := fun _ _ => .error (.transportError "queue full") }

/-- A codec whose payload encoder always fails. -/
def badCodec : Codec :=
  { testCodec with encodePacketData := fun _ => .error "marshal failure" }

/-! ### Theorems for the claims -/

/-- C1: for every packet and payload whose validation succeeds,
`OnRecvIbcPostPacket` appends exactly one post record to the post store
whose creator is `packet.sourcePort ++ "-" ++ packet.sourceChannel ++ "-" ++
payload.creator`, whose title and content are copied verbatim, leaves the
other stores untouched, and returns a successful acknowledgement whose post
id is the decimal string of the id the store assigned to that record. -/
theorem onRecv_valid_appends_one_post (st : BlogState) (packet : Packet)
    (data : IbcPostPacketData) (hc : data.creator ≠ "") (ht : data.title ≠ "") :
    OnRecvIbcPostPacket st packet data =
      (.ok { postID := Nat.repr st.postCount },
       { st with
         posts := st.posts ++
           [{ id := st.postCount,
              creator := packet.sourcePort ++ "-" ++ packet.sourceChannel
                ++ "-" ++ data.creator,
              title := data.title, content := data.content }],
         postCount := st.postCount + 1 }) := by
  simp [OnRecvIbcPostPacket, IbcPostPacketData.validateBasic, hc, ht,
    AppendPost]

/-- Witness for C1: the spec example, payload
`{creator := "alice", title := "T", content := "C"}` arriving on a packet
with source `post`/`channel-0`, appends one post with creator
`post-channel-0-alice` and acknowledges with post id `"0"`. -/
theorem onRecv_valid_appends_one_post_witness :
    ("alice" : String) ≠ "" ∧ ("T" : String) ≠ "" ∧
    OnRecvIbcPostPacket emptyState recvPacket
        { creator := "alice", title := "T", content := "C" } =
      (.ok { postID := "0" },
       { emptyState with
         posts := [{ id := 0, creator := "post-channel-0-alice",
                     title := "T", content := "C" }],
         postCount := 1 }) := by
  refine ⟨by decide, by decide, ?_⟩
  have h := onRecv_valid_appends_one_post emptyState recvPacket
    { creator := "alice", title := "T", content := "C" }
    (by decide) (by decide)
  simpa [emptyState, recvPacket] using h

/-- C3: for every packet and every payload with an empty creator or an empty
title, `OnRecvIbcPostPacket` returns the validation error and returns the
state unchanged, so the post store has the same size before and after. -/
theorem onRecv_invalid_no_mutation (st : BlogState) (packet : Packet)
    (data : IbcPostPacketData) (h : data.creator = "" ∨ data.title = "") :
    OnRecvIbcPostPacket st packet data = (.error .validationError, st) ∧
    (OnRecvIbcPostPacket st packet data).2.posts.length = st.posts.length := by
  have heq : OnRecvIbcPostPacket st packet data = (.error .validationError, st) := by
    rcases h with h1 | h2
    · simp [OnRecvIbcPostPacket, IbcPostPacketData.validateBasic, h1]
    · by_cases h1 : data.creator = "" <;>
        simp [OnRecvIbcPostPacket, IbcPostPacketData.validateBasic, h1, h2]
  exact ⟨heq, by rw [heq]⟩

/-- Witness for C3: an empty creator is rejected and the store is unchanged. -/
theorem onRecv_invalid_no_mutation_witness :
    (("" : String) = "" ∨ ("T" : String) = "") ∧
    OnRecvIbcPostPacket emptyState recvPacket
        { creator := "", title := "T", content := "C" } =
      (.error .validationError, emptyState) := by
  refine ⟨Or.inl rfl, ?_⟩
  exact (onRecv_invalid_no_mutation emptyState recvPacket
    { creator := "", title := "T", content := "C" } (Or.inl rfl)).1

/-- C6: for every packet and payload, `OnTimeoutIbcPostPacket`
unconditionally appends exactly one timed-out post record with the payload
creator and title and chain `destPort ++ "-" ++ destChannel`, touches no
other store, and always returns success. -/
theorem onTimeout_appends_one_timedout_post (st : BlogState) (packet : Packet)
    (data : IbcPostPacketData) :
    OnTimeoutIbcPostPacket st packet data =
      (.ok (),
       { st with
         timedoutPosts := st.timedoutPosts ++
           [{ id := st.timedoutPostCount, creator := data.creator,
              title := data.title,
              chain := packet.destinationPort ++ "-"
                ++ packet.destinationChannel }],
         timedoutPostCount := st.timedoutPostCount + 1 }) := by
  simp [OnTimeoutIbcPostPacket, AppendTimedoutPost]

/-- C9: for every packet and payload, `OnAcknowledgementIbcPostPacket`
invoked with a failure acknowledgement mutates no store and returns
success. -/
theorem onAck_failure_no_mutation (cdc : Codec) (st : BlogState)
    (packet : Packet) (data : IbcPostPacketData) (msg : String) :
    OnAcknowledgementIbcPostPacket cdc st packet data (.ackError msg) =
      (.ok (), st) := by
  simp [OnAcknowledgementIbcPostPacket]


/-- C4: for every packet, payload and success acknowledgement whose bytes
decode to an acknowledgement result, `OnAcknowledgementIbcPostPacket`
appends exactly one sent-post record with the payload creator, the decoded
post id, the payload title and chain `destPort ++ "-" ++ destChannel`,
leaves the other stores untouched, and returns success. -/
theorem onAck_success_appends_one_sent_post (cdc : Codec) (st : BlogState)
    (packet : Packet) (data : IbcPostPacketData) (bs : Bytes)
    (res : IbcPostPacketAck) (hdec : cdc.decodeAck bs = some res) :
    OnAcknowledgementIbcPostPacket cdc st packet data (.ackResult bs) =
      (.ok (),
       { st with
         sentPosts := st.sentPosts ++
           [{ id := st.sentPostCount, creator := data.creator,
              postID := res.postID, title := data.title,
              chain := packet.destinationPort ++ "-"
                ++ packet.destinationChannel }],
         sentPostCount := st.sentPostCount + 1 }) := by
  simp [OnAcknowledgementIbcPostPacket, hdec, AppendSentPost]

/-- Witness for C4: the spec example, a success acknowledgement decoding to
post id `"7"`, payload `{creator := "bob", title := "Hi"}` and destination
`post`/`channel-1`, appends exactly the sent-post record
`{creator := "bob", postID := "7", title := "Hi", chain := "post-channel-1"}`. -/
theorem onAck_success_appends_one_sent_post_witness :
    testCodec.decodeAck [7] = some { postID := "7" } ∧
    OnAcknowledgementIbcPostPacket testCodec emptyState sentPacket
        { creator := "bob", title := "Hi", content := "" } (.ackResult [7]) =
      (.ok (),
       { emptyState with
         sentPosts := [{ id := 0, creator := "bob", postID := "7",
                         title := "Hi", chain := "post-channel-1" }],
         sentPostCount := 1 }) := by
  refine ⟨by decide, ?_⟩
  have h := onAck_success_appends_one_sent_post testCodec emptyState
    sentPacket { creator := "bob", title := "Hi", content := "" } [7]
    { postID := "7" } (by decide)
  simpa [emptyState, sentPacket] using h

/-- C5: `OnAcknowledgementIbcPostPacket` returns an error exactly when the
acknowledgement is a result whose bytes fail to decode (the decode error) or
the acknowledgement is of an unknown shape (the unsupported-format error);
in every error case the state, and in particular the sent-post store, is
returned unchanged. -/
theorem onAck_error_characterisation (cdc : Codec) (st : BlogState)
    (packet : Packet) (data : IbcPostPacketData) (ack : AckResponse) :
    (∀ bs, ack = .ackResult bs → cdc.decodeAck bs = none →
      OnAcknowledgementIbcPostPacket cdc st packet data ack =
        (.error .ackDecodeError, st)) ∧
    (ack = .unknown →
      OnAcknowledgementIbcPostPacket cdc st packet data ack =
        (.error .unsupportedAckFormat, st)) ∧
    (∀ e, (OnAcknowledgementIbcPostPacket cdc st packet data ack).1
        = .error e →
      ((∃ bs, ack = .ackResult bs ∧ cdc.decodeAck bs = none) ∨
        ack = .unknown) ∧
      (OnAcknowledgementIbcPostPacket cdc st packet data ack).2 = st) := by
  refine ⟨?_, ?_, ?_⟩
  · rintro bs rfl hdec
    simp [OnAcknowledgementIbcPostPacket, hdec]
  · rintro rfl
    simp [OnAcknowledgementIbcPostPacket]
  · intro e he
    cases ack with
    | ackError msg => simp [OnAcknowledgementIbcPostPacket] at he
    | ackResult bs =>
      cases hdec : cdc.decodeAck bs with
      | none =>
        exact ⟨Or.inl ⟨bs, rfl, hdec⟩,
          by simp [OnAcknowledgementIbcPostPacket, hdec]⟩
      | some res => simp [OnAcknowledgementIbcPostPacket, hdec] at he
    | unknown =>
      exact ⟨Or.inr rfl, by simp [OnAcknowledgementIbcPostPacket]⟩

/-- Witness for C5: undecodable success bytes give the decode error and an
unknown acknowledgement shape gives the unsupported-format error, both with
the state unchanged. -/
theorem onAck_error_characterisation_witness :
    OnAcknowledgementIbcPostPacket testCodec emptyState sentPacket
        { creator := "bob", title := "Hi", content := "" } (.ackResult []) =
      (.error .ackDecodeError, emptyState) ∧
    OnAcknowledgementIbcPostPacket testCodec emptyState sentPacket
        { creator := "bob", title := "Hi", content := "" } .unknown =
      (.error .unsupportedAckFormat, emptyState) := by
  constructor
  · exact (onAck_error_characterisation testCodec emptyState sentPacket
      { creator := "bob", title := "Hi", content := "" }
      (.ackResult [])).1 [] rfl (by decide)
  · exact (onAck_error_characterisation testCodec emptyState sentPacket
      { creator := "bob", title := "Hi", content := "" } .unknown).2.1 rfl

/-- C10: `OnAcknowledgementIbcPostPacket` performs no content validation:
for every success acknowledgement whose bytes decode, a sent-post record is
appended and success is returned even when the decoded post id or the
payload creator and title are empty strings, with those values copied
verbatim into the record. -/
theorem onAck_no_content_validation (cdc : Codec) (st : BlogState)
    (packet : Packet) (data : IbcPostPacketData) (bs : Bytes)
    (res : IbcPostPacketAck) (hdec : cdc.decodeAck bs = some res) :
    (OnAcknowledgementIbcPostPacket cdc st packet data (.ackResult bs)).1
      = .ok () ∧
    (OnAcknowledgementIbcPostPacket cdc st packet data
        (.ackResult bs)).2.sentPosts =
      st.sentPosts ++
        [{ id := st.sentPostCount, creator := data.creator,
           postID := res.postID, title := data.title,
           chain := packet.destinationPort ++ "-"
             ++ packet.destinationChannel }] := by
  constructor <;> simp [OnAcknowledgementIbcPostPacket, hdec, AppendSentPost]

/-- Witness for C10: an acknowledgement decoding to an empty post id and a
payload with empty creator and title still produce a sent-post record, with
the empty strings copied verbatim. -/
theorem onAck_no_content_validation_witness :
    testCodec.decodeAck [0, 0] = some { postID := "" } ∧
    (OnAcknowledgementIbcPostPacket testCodec emptyState sentPacket
        { creator := "", title := "", content := "" }
        (.ackResult [0, 0])).2.sentPosts =
      [{ id := 0, creator := "", postID := "", title := "",
         chain := "post-channel-1" }] := by
  refine ⟨by decide, ?_⟩
  have h := onAck_no_content_validation testCodec emptyState sentPacket
    { creator := "", title := "", content := "" } [0, 0]
    { postID := "" } (by decide)
  simpa [emptyState, sentPacket] using h.2


/-- Counterexample to C2: the handlers perform no deduplication, so invoking
the acknowledgement reconciler with a decodable success and then the timeout
reconciler for the same packet creates both a sent-post record and a
timed-out post record tied to that packet; the effect of the second call
persists as well. -/
theorem reconcilers_both_records_cex :
    runReconcilerCalls testCodec sentPacket bobPayload emptyState
        [.ackCall (.ackResult [7]), .timeoutCall] =
      { posts := [], postCount := 0,
        sentPosts := [{ id := 0, creator := "bob", postID := "7",
                        title := "Hi", chain := "post-channel-1" }],
        sentPostCount := 1,
        timedoutPosts := [{ id := 0, creator := "bob", title := "Hi",
                            chain := "post-channel-1" }],
        timedoutPostCount := 1 } := by
  decide

/-- C2 amended: the code itself does not enforce mutual exclusion between
the two reconcilers; the at-most-one invariant holds under the transport
guarantee that at most one reconciler is invoked, at most once, per packet.
Formally: any single reconciler invocation grows the sent-post and
timed-out-post stores by at most one record in total. If both reconcilers
are invoked for the same packet, both effects persist, not only that of the
first call. -/
theorem reconcilers_single_call_at_most_one_record (cdc : Codec)
    (packet : Packet) (data : IbcPostPacketData) (st : BlogState)
    (c : ReconcilerCall) :
    (runReconcilerCalls cdc packet data st [c]).sentPosts.length +
        (runReconcilerCalls cdc packet data st [c]).timedoutPosts.length ≤
      st.sentPosts.length + st.timedoutPosts.length + 1 := by
  cases c with
  | ackCall ack =>
    cases ack with
    | ackError msg =>
      simp [runReconcilerCalls, runReconcilerCall,
        OnAcknowledgementIbcPostPacket]
    | ackResult bs =>
      cases hdec : cdc.decodeAck bs with
      | none =>
        simp [runReconcilerCalls, runReconcilerCall,
          OnAcknowledgementIbcPostPacket, hdec]
      | some res =>
        simp [runReconcilerCalls, runReconcilerCall,
          OnAcknowledgementIbcPostPacket, hdec, AppendSentPost]
        omega
    | unknown =>
      simp [runReconcilerCalls, runReconcilerCall,
        OnAcknowledgementIbcPostPacket]
  | timeoutCall =>
    simp [runReconcilerCalls, runReconcilerCall, OnTimeoutIbcPostPacket,
      AppendTimedoutPost]
    omega

/-- C7: `TransmitIbcPostPacket` fails with the channel-not-found error when
the channel lookup fails; otherwise with the sequence-not-found error when
the send-sequence lookup fails; otherwise with the capability-missing error
when the capability lookup fails; otherwise with the encoding error when
payload serialization fails; otherwise any error of the transport send
primitive is propagated unchanged. Each conjunct holds regardless of the
behaviour of the later lookups, so the checks occur in exactly this
order. -/
theorem transmit_error_order (env : TransmitEnv) (cdc : Codec)
    (st : BlogState) (data : IbcPostPacketData) (sp sc : String)
    (th : Height) (tt : Nat) :
    (env.getChannel sp sc = none →
      TransmitIbcPostPacket env cdc st data sp sc th tt =
        (.error .channelNotFound, st)) ∧
    (∀ ch, env.getChannel sp sc = some ch →
      env.getNextSequenceSend sp sc = none →
      TransmitIbcPostPacket env cdc st data sp sc th tt =
        (.error .sequenceNotFound, st)) ∧
    (∀ ch n, env.getChannel sp sc = some ch →
      env.getNextSequenceSend sp sc = some n →
      env.getCapability (ChannelCapabilityPath sp sc) = none →
      TransmitIbcPostPacket env cdc st data sp sc th tt =
        (.error .capabilityMissing, st)) ∧
    (∀ ch n cap msg, env.getChannel sp sc = some ch →
      env.getNextSequenceSend sp sc = some n →
      env.getCapability (ChannelCapabilityPath sp sc) = some cap →
      cdc.encodePacketData data = .error msg →
      TransmitIbcPostPacket env cdc st data sp sc th tt =
        (.error (.encodingError msg), st)) ∧
    (∀ ch n cap bs e, env.getChannel sp sc = some ch →
      env.getNextSequenceSend sp sc = some n →
      env.getCapability (ChannelCapabilityPath sp sc) = some cap →
      cdc.encodePacketData data = .ok bs →
      env.sendPacket cap
          { sequence := n, sourcePort := sp, sourceChannel := sc,
            destinationPort := ch.counterparty.portID,
            destinationChannel := ch.counterparty.channelID,
            timeoutHeight := th, timeoutTimestamp := tt, data := bs } =
        .error e →
      TransmitIbcPostPacket env cdc st data sp sc th tt = (.error e, st)) := by
  refine ⟨?_, ?_, ?_, ?_, ?_⟩
  · intro h1
    simp [TransmitIbcPostPacket, h1]
  · intro ch h1 h2
    simp [TransmitIbcPostPacket, h1, h2]
  · intro ch n h1 h2 h3
    simp [TransmitIbcPostPacket, h1, h2, h3]
  · intro ch n cap msg h1 h2 h3 h4
    simp [TransmitIbcPostPacket, h1, h2, h3, h4]
  · intro ch n cap bs e h1 h2 h3 h4 h5
    simp [TransmitIbcPostPacket, h1, h2, h3, h4, h5]

/-- Witness for C7: concrete environments exercising each failure, in
order: missing channel, missing sequence, missing capability, failing
payload encoder, failing transport send primitive. -/
theorem transmit_error_order_witness :
    TransmitIbcPostPacket noChannelEnv testCodec emptyState bobPayload
        "blog" "channel-7" testHeight 0 =
      (.error .channelNotFound, emptyState) ∧
    TransmitIbcPostPacket noSequenceEnv testCodec emptyState bobPayload
        "blog" "channel-7" testHeight 0 =
      (.error .sequenceNotFound, emptyState) ∧
    TransmitIbcPostPacket noCapabilityEnv testCodec emptyState bobPayload
        "blog" "channel-7" testHeight 0 =
      (.error .capabilityMissing, emptyState) ∧
    TransmitIbcPostPacket goodEnv badCodec emptyState bobPayload
        "blog" "channel-7" testHeight 0 =
      (.error (.encodingError "marshal failure"), emptyState) ∧
    TransmitIbcPostPacket failSendEnv testCodec emptyState bobPayload
        "blog" "channel-7" testHeight 0 =
      (.error (.transportError "queue full"), emptyState) := by
  refine ⟨?_, ?_, ?_, ?_, ?_⟩
  · exact (transmit_error_order noChannelEnv testCodec emptyState bobPayload
      "blog" "channel-7" testHeight 0).1 rfl
  · exact (transmit_error_order noSequenceEnv testCodec emptyState bobPayload
      "blog" "channel-7" testHeight 0).2.1
      { counterparty := { portID := "post", channelID := "channel-1" } }
      rfl rfl
  · exact (transmit_error_order noCapabilityEnv testCodec emptyState
      bobPayload "blog" "channel-7" testHeight 0).2.2.1
      { counterparty := { portID := "post", channelID := "channel-1" } }
      5 rfl rfl rfl
  · exact (transmit_error_order goodEnv badCodec emptyState bobPayload
      "blog" "channel-7" testHeight 0).2.2.2.1
      { counterparty := { portID := "post", channelID := "channel-1" } }
      5 { index := 1 } "marshal failure" rfl rfl rfl rfl
  · exact (transmit_error_order failSendEnv testCodec emptyState bobPayload
      "blog" "channel-7" testHeight 0).2.2.2.2
      { counterparty := { portID := "post", channelID := "channel-1" } }
      5 { index := 1 } [3, 2, 0] (.transportError "queue full")
      rfl rfl rfl rfl rfl

/-- C8: `TransmitIbcPostPacket` never mutates any blog store (the state
component of its result is always the input state), and with a found
channel, found sequence, held capability, successful encoding and a
successful transport send, the packet it hands to the send primitive has
the source port and channel of the caller, the destination port and channel
of the counterparty of the channel, the resolved next send sequence, and
the timeout parameters of the caller. -/
theorem transmit_frame_and_packet_fields (env : TransmitEnv) (cdc : Codec)
    (st : BlogState) (data : IbcPostPacketData) (sp sc : String)
    (th : Height) (tt : Nat) :
    (TransmitIbcPostPacket env cdc st data sp sc th tt).2 = st ∧
    (∀ ch n cap bs, env.getChannel sp sc = some ch →
      env.getNextSequenceSend sp sc = some n →
      env.getCapability (ChannelCapabilityPath sp sc) = some cap →
      cdc.encodePacketData data = .ok bs →
      env.sendPacket cap
          { sequence := n, sourcePort := sp, sourceChannel := sc,
            destinationPort := ch.counterparty.portID,
            destinationChannel := ch.counterparty.channelID,
            timeoutHeight := th, timeoutTimestamp := tt, data := bs } =
        .ok () →
      (TransmitIbcPostPacket env cdc st data sp sc th tt).1 =
        .ok { sequence := n, sourcePort := sp, sourceChannel := sc,
              destinationPort := ch.counterparty.portID,
              destinationChannel := ch.counterparty.channelID,
              timeoutHeight := th, timeoutTimestamp := tt, data := bs }) := by
  constructor
  · unfold TransmitIbcPostPacket
    repeat' split
    all_goals try rfl
    all_goals dsimp only
    all_goals split <;> rfl
  · intro ch n cap bs h1 h2 h3 h4 h5
    simp [TransmitIbcPostPacket, h1, h2, h3, h4, h5]

/-- Witness for C8: with the all-successful environment and codec, the
state is unchanged and the packet carries the caller endpoints, the
counterparty destination, sequence 5 and the caller timeouts. -/
theorem transmit_frame_and_packet_fields_witness :
    (TransmitIbcPostPacket goodEnv testCodec emptyState bobPayload
        "blog" "channel-7" testHeight 0).2 = emptyState ∧
    (TransmitIbcPostPacket goodEnv testCodec emptyState bobPayload
        "blog" "channel-7" testHeight 0).1 =
      .ok { sequence := 5, sourcePort := "blog", sourceChannel := "channel-7",
            destinationPort := "post", destinationChannel := "channel-1",
            timeoutHeight := testHeight, timeoutTimestamp := 0,
            data := [3, 2, 0] } := by
  constructor
  · exact (transmit_frame_and_packet_fields goodEnv testCodec emptyState
      bobPayload "blog" "channel-7" testHeight 0).1
  · exact (transmit_frame_and_packet_fields goodEnv testCodec emptyState
      bobPayload "blog" "channel-7" testHeight 0).2
      { counterparty := { portID := "post", channelID := "channel-1" } }
      5 { index := 1 } [3, 2, 0] rfl rfl rfl rfl rfl

end Planet
